import Mathlib

/-!
Shallow embedding of the Recipe Generator application.

Source files embedded:
- `src/app/page.tsx` — the page component: basket handlers, recipe generation
  handler, ingredient search filter, initial catalog data.
- `src/unnamed/part_000` (`app/api/generate-recipe/route.ts`) — the `POST`
  endpoint: API-key guard, request validation, prompt construction, provider
  call, response interpretation, error composition.

Conventions: JavaScript strings become `String`; optional / possibly-absent
JSON fields become `Option`; `Date.now()` timestamps become a `Nat` parameter;
the asynchronous provider call becomes a function parameter from the prompt to
an explicit result datatype; JavaScript falsy-string coalescing (`s || d`)
becomes `jsOr`; `Array.prototype.join` (which renders `undefined` elements as
the empty string) becomes `jsJoin` over `Option.getD ""`-projected names;
`String.prototype.toLowerCase` / `includes` become `String.toLower` and an
explicit substring scan `listIncludes` (the catalog names are ASCII, where the
two lowercasing functions agree).
-/

namespace RecipeGen

/-- `interface Ingredient` from `page.tsx`. -/
structure Ingredient where
  id : String
  name : String
deriving DecidableEq

/-- `interface Recipe` from `page.tsx`; `generatedAt : Date` is modelled as a
`Nat` timestamp. -/
structure Recipe where
  id : String
  ingredientsUsed : List Ingredient
  recipeText : String
  generatedAt : Nat
deriving DecidableEq

/-- `INITIAL_INGREDIENTS` from `page.tsx`. -/
def INITIAL_INGREDIENTS : List Ingredient :=
  [⟨"1", "Chicken"⟩, ⟨"2", "Rice"⟩, ⟨"3", "Tomatoes"⟩,
   ⟨"4", "Onions"⟩, ⟨"5", "Garlic"⟩, ⟨"6", "Bell Peppers"⟩,
   ⟨"7", "Olive Oil"⟩, ⟨"8", "Pasta"⟩, ⟨"9", "Eggs"⟩,
   ⟨"10", "Milk"⟩, ⟨"11", "Cheese"⟩, ⟨"12", "Butter"⟩]

/-- JavaScript string coalescing `s || fallback`: the empty string is falsy. -/
def jsOr (s fallback : String) : String := if s = "" then fallback else s

/-- `Array.prototype.join(sep)` on a list of strings. -/
def jsJoin (sep : String) : List String → String
  | [] => ""
  | [x] => x
  | x :: y :: xs => x ++ sep ++ jsJoin sep (y :: xs)

/-- `String.prototype.toLowerCase`, modelled per character over the string's
character list (the lowercasings agree on the ASCII catalog data). -/
def jsToLower (s : String) : List Char := s.data.map Char.toLower

/-- Bool test: does `sub` occur as a contiguous substring (list of chars) of
`s`?  Embeds JavaScript `String.prototype.includes`. -/
def listIncludes (sub : List Char) : List Char → Bool
  | [] => sub.isPrefixOf []
  | c :: rest => sub.isPrefixOf (c :: rest) || listIncludes sub rest

/-- Number of positions of `s` at which `pat` matches (occurrence count of
`pat` as a substring of `s`, overlapping occurrences counted). -/
def countOcc (pat : List Char) : List Char → Nat
  | [] => if pat.isPrefixOf ([] : List Char) then 1 else 0
  | c :: rest => (if pat.isPrefixOf (c :: rest) then 1 else 0) + countOcc pat rest

/-! ## The API route (`app/api/generate-recipe/route.ts`, src/unnamed/part_000) -/

/-- One element of the request body's `ingredients` array: a JSON object whose
`name` field may be absent (`none`). -/
structure JsIngredient where
  name : Option String
deriving DecidableEq

/-- `const ingredientNames = ingredients.map(ing => ing.name).join(', ')`.
`Array.prototype.join` renders an `undefined` element as the empty string. -/
def ingredientNamesOf (ingredients : List JsIngredient) : String :=
  jsJoin ", " (ingredients.map (fun ing => ing.name.getD ""))

/-- Text of the prompt template literal before the `ingredientNames`
interpolation point. -/
def promptPart1 : String :=
  "\n      You are a helpful recipe assistant.\n      Generate a simple recipe using ONLY the following ingredients: "

/-- Text of the prompt template literal after the `ingredientNames`
interpolation point. -/
def promptPart2 : String :=
  ".\n      Provide a title for the recipe, a list of the ingredients provided, and step-by-step instructions.\n      Keep the instructions concise and easy to follow.\n      If the ingredients don\x27t seem sufficient for a meaningful recipe, suggest adding 1-2 common pantry staples (like salt, pepper, oil, water) if necessary, but prioritize using only the provided ingredients.\n      Format the output clearly. Example:\n\n      **Recipe Title**\n\n      **Ingredients:**\n      * Ingredient 1\n      * Ingredient 2\n      * ...\n\n      **Instructions:**\n      1. Step 1...\n      2. Step 2...\n      3. Step 3...\n    "

/-- `const prompt = \`...${ingredientNames}...\`` from the route. -/
def buildPrompt (ingredientNames : String) : String :=
  promptPart1 ++ ingredientNames ++ promptPart2

/-- The provider's response object (`result.response`): its extracted text
(`response.text()`, empty string when absent/falsy), the optional
`candidates?.[0]?.finishReason` and the optional `candidates?.[0]?.safetyRatings`
(modelled, already `JSON.stringify`-ed, as a string). -/
structure ProviderResponse where
  text : String
  finishReason : Option String
  safetyRatings : Option String
deriving DecidableEq

/-- Result of an exception-free `model.generateContent` call: either the
`response` object is present, or missing (`!result.response`). -/
inductive ProviderResult where
  | noResponse
  | response (r : ProviderResponse)
deriving DecidableEq

/-- A JavaScript value thrown during the provider call, as the route's
`catch` discriminates it: an `Error` instance (carrying `.message`), a plain
string, or anything else. -/
inductive ThrownValue where
  | errorObj (message : String)
  | stringVal (s : String)
  | other
deriving DecidableEq

/-- Overall result of the provider call: returned normally or threw. -/
inductive CallResult where
  | ok (r : ProviderResult)
  | throws (e : ThrownValue)
deriving DecidableEq

/-- The HTTP response produced by the route: status plus the JSON body's
`error` / `recipeText` fields. -/
structure ApiResponse where
  status : Nat
  error : Option String
  recipeText : Option String
deriving DecidableEq

/-- `` const reasonInfo = finishReason ? ` (Finish Reason: ${finishReason})` : '' ``. -/
def reasonInfo : Option String → String
  | some fr => " (Finish Reason: " ++ fr ++ ")"
  | none => ""

/-- `` const safetyInfo = safetyRatings ? ` (Safety Ratings: ${JSON.stringify(safetyRatings)})` : '' ``. -/
def safetyInfo : Option String → String
  | some sr => " (Safety Ratings: " ++ sr ++ ")"
  | none => ""

/-- The `errorMessage` computed in the empty-text branch of the route:
default, overridden on `finishReason === 'SAFETY'`, else on any truthy
`finishReason`. -/
def emptyBaseMessage (finishReason : Option String) : String :=
  if finishReason = some "SAFETY" then
    "Failed to generate recipe due to safety settings."
  else
    match finishReason with
    | some _ => "Failed to generate recipe. " ++ reasonInfo finishReason
    | none => "Failed to generate recipe. The AI response was empty or blocked."

/-- The `errorMessage` extracted from a thrown value in the route's `catch`:
`error.message` for `Error` instances, the string itself for strings,
`'Unknown error'` otherwise. -/
def thrownMessage : ThrownValue → String
  | .errorObj m => m
  | .stringVal s => s
  | .other => "Unknown error"

/-- The `POST` handler of `app/api/generate-recipe/route.ts`.
`apiKey` is `process.env.GEMINI_API_KEY || ""` (empty = not configured);
`ingredients` is the parsed body's `ingredients` field (`none` when missing,
falsy or not an array); `provider` maps the constructed prompt to the
provider call's result. -/
def POST (apiKey : String) (ingredients : Option (List JsIngredient))
    (provider : String → CallResult) : ApiResponse :=
  if apiKey = "" then
    ⟨500, some "API key not configured", none⟩
  else
    match ingredients with
    | none => ⟨400, some "Missing or invalid ingredients list", none⟩
    | some items =>
      if items.length = 0 then
        ⟨400, some "Missing or invalid ingredients list", none⟩
      else
        match provider (buildPrompt (ingredientNamesOf items)) with
        | .throws e =>
          ⟨500, some ("Failed to generate recipe. " ++ thrownMessage e), none⟩
        | .ok .noResponse =>
          ⟨500, some "Failed to generate recipe. No response object from AI.", none⟩
        | .ok (.response r) =>
          if r.text = "" then
            ⟨500, some (emptyBaseMessage r.finishReason ++ safetyInfo r.safetyRatings), none⟩
          else
            ⟨200, none, some r.text⟩

/-! ## The page component (`src/app/page.tsx`) -/

/-- The component state touched by the generation flow. -/
structure PageState where
  basket : List Ingredient
  recipeHistory : List Recipe
  error : Option String
  isGenerating : Bool
deriving DecidableEq

/-- Result of the page's `fetch('/api/generate-recipe')` round trip:
`ok` = `response.ok` with a `{recipeText}` body; `httpError` = `!response.ok`
with status and the body's optional `error` field; `thrown` = the fetch or
JSON parse threw an `Error` with the given message. -/
inductive FetchOutcome where
  | ok (recipeText : String)
  | httpError (status : Nat) (errField : Option String)
  | thrown (message : String)
deriving DecidableEq

/-- Message of the `Error` thrown on `!response.ok`:
`data.error || \`HTTP error! status: ${response.status}\``. -/
def httpErrorMessage (status : Nat) (errField : Option String) : String :=
  jsOr (errField.getD "") ("HTTP error! status: " ++ toString status)

/-- `handleGenerateRecipe` from `page.tsx`.  `now` is `Date.now()` at recipe
creation.  Returns the final component state together with a flag recording
whether the `fetch` (provider call) was performed; `isGenerating` is reset in
`finally` on every path that entered the try block. -/
def handleGenerateRecipe (s : PageState) (fetchResult : FetchOutcome)
    (now : Nat) : PageState × Bool :=
  if s.basket.length = 0 then
    ({ s with error := some "Your basket is empty. Add some ingredients first!" }, false)
  else
    match fetchResult with
    | .ok recipeText =>
      ({ basket := [],
         recipeHistory :=
           { id := "recipe_" ++ toString now,
             ingredientsUsed := s.basket,
             recipeText := recipeText,
             generatedAt := now } :: s.recipeHistory,
         error := none,
         isGenerating := false }, true)
    | .httpError status errField =>
      ({ s with
         error := some (jsOr (httpErrorMessage status errField)
           "An unexpected error occurred while generating the recipe."),
         isGenerating := false }, true)
    | .thrown message =>
      ({ s with
         error := some (jsOr message
           "An unexpected error occurred while generating the recipe."),
         isGenerating := false }, true)

/-- `handleAddToBasket` from `page.tsx`: `[...prevBasket, itemToAdd]`. -/
def handleAddToBasket (itemToAdd : Ingredient) (prevBasket : List Ingredient) :
    List Ingredient :=
  prevBasket ++ [itemToAdd]

/-- `handleRemoveFromBasket` from `page.tsx`: `findIndex` on id, then splice
out that single entry; no-op when absent. -/
def handleRemoveFromBasket (idToRemove : String) (prevBasket : List Ingredient) :
    List Ingredient :=
  match prevBasket.findIdx? (fun item => item.id == idToRemove) with
  | some i => prevBasket.take i ++ prevBasket.drop (i + 1)
  | none => prevBasket

/-- `handleClearBasket` from `page.tsx`: `setBasket([])`. -/
def handleClearBasket (_prevBasket : List Ingredient) : List Ingredient := []

/-- `filteredIngredients` from `page.tsx`:
`ingredients.filter(i => i.name.toLowerCase().includes(searchTerm.toLowerCase()))`. -/
def filteredIngredients (ingredients : List Ingredient) (searchTerm : String) :
    List Ingredient :=
  ingredients.filter
    (fun ingredient => listIncludes (jsToLower searchTerm) (jsToLower ingredient.name))

/-! ## Helper lemmas -/

set_option maxRecDepth 10000

/-- A string with prefix `a` cannot equal `b` when `a` is (computably) not a
prefix of `b`. -/
theorem append_ne_of_isPrefixOf_eq_false {a b : String}
    (h : a.data.isPrefixOf b.data = false) : ∀ m : String, a ++ m ≠ b := by
  intro m he
  have hp : a.data <+: b.data := ⟨m.data, by rw [← String.data_append, he]⟩
  rw [← List.isPrefixOf_iff_prefix] at hp
  rw [h] at hp
  exact Bool.noConfusion hp

/-- Folding `handleAddToBasket` over a list of items adds one basket entry per
item. -/
theorem length_foldl_addToBasket (items : List Ingredient) :
    ∀ acc : List Ingredient,
      (items.foldl (fun b i => handleAddToBasket i b) acc).length
        = acc.length + items.length := by
  induction items with
  | nil => intro acc; simp
  | cons a t ih =>
    intro acc
    rw [List.foldl_cons, ih]
    simp only [handleAddToBasket, List.length_append, List.length_cons,
      List.length_nil]
    omega

/-- `countOcc` counts at least the match at the head position. -/
theorem head_match_le_countOcc (pat l : List Char) :
    (if pat.isPrefixOf l then 1 else 0) ≤ countOcc pat l := by
  cases l with
  | nil => simp [countOcc]
  | cons c rest => simp only [countOcc]; omega

/-- A pattern occurring as a contiguous substring is counted at least once by
`countOcc`. -/
theorem one_le_countOcc_of_split (pat : List Char) :
    ∀ (pre post : List Char), 1 ≤ countOcc pat (pre ++ (pat ++ post)) := by
  intro pre
  induction pre with
  | nil =>
    intro post
    have hpref : pat.isPrefixOf (pat ++ post) = true :=
      List.isPrefixOf_iff_prefix.mpr (List.prefix_append pat post)
    have := head_match_le_countOcc pat (pat ++ post)
    rw [hpref] at this
    simpa using this
  | cons c pre ih =>
    intro post
    have h1 := ih post
    have h2 : countOcc pat ((c :: pre) ++ (pat ++ post))
        = (if pat.isPrefixOf ((c :: pre) ++ (pat ++ post)) then 1 else 0)
          + countOcc pat (pre ++ (pat ++ post)) := rfl
    rw [h2]
    omega

/-- Every member of a list occurs as a contiguous substring of the
`jsJoin ", "` of that list. -/
theorem mem_split_of_jsJoin (names : List String) :
    ∀ n ∈ names, ∃ pre post, (jsJoin ", " names).data = pre ++ (n.data ++ post) := by
  induction names with
  | nil => intro n hn; exact absurd hn (List.not_mem_nil n)
  | cons x t ih =>
    intro n hn
    cases t with
    | nil =>
      rcases List.mem_cons.mp hn with rfl | hn
      · exact ⟨[], [], by simp [jsJoin]⟩
      · exact absurd hn (List.not_mem_nil n)
    | cons y xs =>
      rcases List.mem_cons.mp hn with rfl | hn
      · refine ⟨[], (", " : String).data ++ (jsJoin ", " (y :: xs)).data, ?_⟩
        simp [jsJoin, String.data_append, List.append_assoc]
      · obtain ⟨pre, post, hsplit⟩ := ih n hn
        refine ⟨x.data ++ (", " : String).data ++ pre, post, ?_⟩
        simp [jsJoin, String.data_append, hsplit, List.append_assoc]

/-! ## Claims -/

/-- C5: when the provider credential is not configured (empty
`GEMINI_API_KEY`), every request receives the 500 response
`{"error":"API key not configured"}`, independent of the request body and of
the provider: the handler returns before the body or the prompt influence
anything. -/
theorem c5_missing_api_key_rejects_every_request :
    ∀ (ingredients : Option (List JsIngredient)) (provider : String → CallResult),
      POST "" ingredients provider = ⟨500, some "API key not configured", none⟩ :=
  fun _ _ => rfl

/-- C6: invoking the generation handler with an empty basket only sets the
error message: the fetch is not performed (`false` flag), the basket, history
and `isGenerating` flag are untouched. -/
theorem c6_empty_basket_rejected_without_call :
    ∀ (s : PageState) (fetchResult : FetchOutcome) (now : Nat),
      s.basket = [] →
      handleGenerateRecipe s fetchResult now
        = ({ s with error := some "Your basket is empty. Add some ingredients first!" },
           false) := by
  intro s fetchResult now h
  simp [handleGenerateRecipe, h]

/-- Witness for C6 at a concrete state. -/
theorem c6_empty_basket_rejected_without_call_witness :
    handleGenerateRecipe ⟨[], [], none, false⟩ (.ok "text") 7
      = (⟨[], [], some "Your basket is empty. Add some ingredients first!", false⟩,
         false) :=
  c6_empty_basket_rejected_without_call ⟨[], [], none, false⟩ (.ok "text") 7 rfl

/-- C1: a generation that completes successfully prepends to the history a
new `Recipe` whose `ingredientsUsed` is the basket at call time, and empties
the basket. -/
theorem c1_success_prepends_recipe_and_clears_basket :
    ∀ (s : PageState) (text : String) (now : Nat),
      s.basket ≠ [] →
      (handleGenerateRecipe s (.ok text) now).1.recipeHistory
          = { id := "recipe_" ++ toString now, ingredientsUsed := s.basket,
              recipeText := text, generatedAt := now } :: s.recipeHistory
        ∧ (handleGenerateRecipe s (.ok text) now).1.basket = [] := by
  intro s text now h
  rw [show (handleGenerateRecipe s (.ok text) now)
      = ({ basket := [],
           recipeHistory :=
             { id := "recipe_" ++ toString now, ingredientsUsed := s.basket,
               recipeText := text, generatedAt := now } :: s.recipeHistory,
           error := none, isGenerating := false }, true) from by
    simp [handleGenerateRecipe, List.length_eq_zero, h]]
  exact ⟨rfl, rfl⟩

/-- Witness for C1 at a concrete state. -/
theorem c1_success_prepends_recipe_and_clears_basket_witness :
    (handleGenerateRecipe ⟨[⟨"1", "Chicken"⟩, ⟨"2", "Rice"⟩], [], none, false⟩
        (.ok "**Chicken & Rice**") 5).1.recipeHistory
      = [{ id := "recipe_5", ingredientsUsed := [⟨"1", "Chicken"⟩, ⟨"2", "Rice"⟩],
           recipeText := "**Chicken & Rice**", generatedAt := 5 }]
    ∧ (handleGenerateRecipe ⟨[⟨"1", "Chicken"⟩, ⟨"2", "Rice"⟩], [], none, false⟩
        (.ok "**Chicken & Rice**") 5).1.basket = [] :=
  c1_success_prepends_recipe_and_clears_basket
    ⟨[⟨"1", "Chicken"⟩, ⟨"2", "Rice"⟩], [], none, false⟩
    "**Chicken & Rice**" 5 (by decide)

/-- C2: any failed generation (non-ok HTTP response or thrown fetch error)
leaves basket and history exactly as before and surfaces some error message;
when the server replied with a non-empty `error` field, that very string is
surfaced. -/
theorem c2_failure_preserves_basket_and_history :
    ∀ (s : PageState) (fetchResult : FetchOutcome) (now : Nat),
      s.basket ≠ [] →
      (∀ text, fetchResult ≠ .ok text) →
      (handleGenerateRecipe s fetchResult now).1.basket = s.basket
      ∧ (handleGenerateRecipe s fetchResult now).1.recipeHistory = s.recipeHistory
      ∧ (∃ msg, (handleGenerateRecipe s fetchResult now).1.error = some msg)
      ∧ (∀ st e, e ≠ "" → fetchResult = .httpError st (some e) →
          (handleGenerateRecipe s fetchResult now).1.error = some e) := by
  intro s fetchResult now h hfail
  cases fetchResult with
  | ok text => exact absurd rfl (hfail text)
  | httpError st errField =>
    refine ⟨by simp [handleGenerateRecipe, List.length_eq_zero, h],
            by simp [handleGenerateRecipe, List.length_eq_zero, h],
            ⟨jsOr (httpErrorMessage st errField)
               "An unexpected error occurred while generating the recipe.",
             by simp [handleGenerateRecipe, List.length_eq_zero, h]⟩, ?_⟩
    intro st' e he hfe
    injection hfe with h1 h2
    subst h1
    subst h2
    simp [handleGenerateRecipe, List.length_eq_zero, h, httpErrorMessage, jsOr, he]
  | thrown message =>
    exact ⟨by simp [handleGenerateRecipe, List.length_eq_zero, h],
           by simp [handleGenerateRecipe, List.length_eq_zero, h],
           ⟨jsOr message "An unexpected error occurred while generating the recipe.",
            by simp [handleGenerateRecipe, List.length_eq_zero, h]⟩,
           by intro st' e he hfe; exact FetchOutcome.noConfusion hfe⟩

/-- Witness for C2 at a concrete state and failure outcome. -/
theorem c2_failure_preserves_basket_and_history_witness :
    (handleGenerateRecipe ⟨[⟨"1", "Chicken"⟩], [], none, false⟩
        (.httpError 500 (some "Failed to generate recipe. fetch failed")) 3).1.basket
      = [⟨"1", "Chicken"⟩]
    ∧ (handleGenerateRecipe ⟨[⟨"1", "Chicken"⟩], [], none, false⟩
        (.httpError 500 (some "Failed to generate recipe. fetch failed")) 3).1.error
      = some "Failed to generate recipe. fetch failed" := by
  have h := c2_failure_preserves_basket_and_history
    ⟨[⟨"1", "Chicken"⟩], [], none, false⟩
    (.httpError 500 (some "Failed to generate recipe. fetch failed")) 3
    (by decide) (by intro text hc; exact FetchOutcome.noConfusion hc)
  exact ⟨h.1, h.2.2.2 500 "Failed to generate recipe. fetch failed" (by decide) rfl⟩

/-- C8: basket algebra — N adds from the empty basket give count N; removing
a present id decreases the count by exactly 1 (splicing out the first match);
removing an absent id is the identity. -/
theorem c8_basket_add_remove_count :
    (∀ items : List Ingredient,
       (items.foldl (fun b i => handleAddToBasket i b) []).length = items.length)
    ∧ (∀ (basket : List Ingredient) (idv : String),
        (∃ x ∈ basket, x.id = idv) →
        (handleRemoveFromBasket idv basket).length + 1 = basket.length)
    ∧ (∀ (basket : List Ingredient) (idv : String),
        (∀ x ∈ basket, x.id ≠ idv) →
        handleRemoveFromBasket idv basket = basket) := by
  refine ⟨?_, ?_, ?_⟩
  · intro items
    simpa using length_foldl_addToBasket items []
  · intro basket idv hex
    obtain ⟨x, hx, hid⟩ := hex
    have hsome : basket.findIdx? (fun item => item.id == idv)
        = some (basket.findIdx (fun item => item.id == idv)) :=
      List.findIdx?_eq_some_of_exists ⟨x, hx, by simp [hid]⟩
    have hlt : basket.findIdx (fun item => item.id == idv) < basket.length :=
      (List.findIdx?_eq_some_iff_findIdx_eq.mp hsome).1
    unfold handleRemoveFromBasket
    rw [hsome]
    simp only [List.length_append, List.length_take, List.length_drop]
    omega
  · intro basket idv habs
    have hnone : basket.findIdx? (fun item => item.id == idv) = none :=
      List.findIdx?_eq_none_iff.mpr (fun x hx => by simp [habs x hx])
    unfold handleRemoveFromBasket
    rw [hnone]

/-- Witness for C8 at concrete baskets. -/
theorem c8_basket_add_remove_count_witness :
    ([⟨"1", "Chicken"⟩, ⟨"2", "Rice"⟩].foldl
        (fun b i => handleAddToBasket i b) []).length = 2
    ∧ (handleRemoveFromBasket "1" [⟨"1", "Chicken"⟩, ⟨"2", "Rice"⟩]).length + 1 = 2
    ∧ handleRemoveFromBasket "9" [⟨"1", "Chicken"⟩, ⟨"2", "Rice"⟩]
        = [⟨"1", "Chicken"⟩, ⟨"2", "Rice"⟩] :=
  ⟨c8_basket_add_remove_count.1 [⟨"1", "Chicken"⟩, ⟨"2", "Rice"⟩],
   c8_basket_add_remove_count.2.1 [⟨"1", "Chicken"⟩, ⟨"2", "Rice"⟩] "1"
     ⟨⟨"1", "Chicken"⟩, by decide, rfl⟩,
   c8_basket_add_remove_count.2.2 [⟨"1", "Chicken"⟩, ⟨"2", "Rice"⟩] "9"
     (by decide)⟩

/-- C9: the catalog search is a pure, case-insensitive substring filter: the
empty search term returns the whole catalog in its current order, and
searching "CHICK" over the seeded catalog returns exactly the "Chicken"
item. -/
theorem c9_search_case_insensitive_substring :
    (∀ ingredients : List Ingredient, filteredIngredients ingredients "" = ingredients)
    ∧ filteredIngredients INITIAL_INGREDIENTS "CHICK" = [⟨"1", "Chicken"⟩] := by
  constructor
  · intro ingredients
    apply List.filter_eq_self.mpr
    intro a _
    show listIncludes (jsToLower "") (jsToLower a.name) = true
    have h0 : jsToLower "" = [] := rfl
    rw [h0]
    cases jsToLower a.name with
    | nil => rfl
    | cons c rest => rfl
  · decide

/-- Every category message of the empty-text branch starts with the text
"Failed to generate recipe". -/
theorem emptyBaseMessage_starts_with_failed (fr : Option String) :
    ∃ rest, emptyBaseMessage fr = "Failed to generate recipe" ++ rest := by
  cases fr with
  | none => exact ⟨". The AI response was empty or blocked.", by decide⟩
  | some r =>
    by_cases h : r = "SAFETY"
    · subst h
      exact ⟨" due to safety settings.", by decide⟩
    · refine ⟨". " ++ reasonInfo (some r), ?_⟩
      have h1 : emptyBaseMessage (some r)
          = "Failed to generate recipe. " ++ reasonInfo (some r) := by
        simp [emptyBaseMessage, h]
      have h2 : "Failed to generate recipe. " = "Failed to generate recipe" ++ ". " := by
        decide
      rw [h1, h2, String.append_assoc]

/-- C3: the route's response interpretation follows the decision order: a
missing response object yields the 500 no-response-object error; with a
response object whose text is empty, the error body is the category message
chosen from the finish-reason alone (SAFETY yields the blocked message, any
other present reason yields the empty-response message carrying that reason,
an absent reason yields the generic empty-response message) with the
safety-ratings diagnostic appended after it; the diagnostic is a function of
the ratings only and the category message a function of the finish-reason
only, so ratings never change the chosen category. -/
theorem c3_interpreter_decision_order :
    (∀ (apiKey : String) (items : List JsIngredient) (r : ProviderResponse),
       apiKey ≠ "" → items ≠ [] → r.text = "" →
       POST apiKey (some items) (fun _ => .ok .noResponse)
           = ⟨500, some "Failed to generate recipe. No response object from AI.", none⟩
       ∧ POST apiKey (some items) (fun _ => .ok (.response r))
           = ⟨500, some (emptyBaseMessage r.finishReason ++ safetyInfo r.safetyRatings),
              none⟩)
    ∧ emptyBaseMessage (some "SAFETY")
        = "Failed to generate recipe due to safety settings."
    ∧ (∀ fr : String, fr ≠ "SAFETY" →
        emptyBaseMessage (some fr)
          = "Failed to generate recipe. " ++ (" (Finish Reason: " ++ fr ++ ")"))
    ∧ emptyBaseMessage none
        = "Failed to generate recipe. The AI response was empty or blocked." := by
  refine ⟨?_, rfl, ?_, rfl⟩
  · intro apiKey items r hk hi ht
    constructor
    · simp [POST, hk, List.length_eq_zero, hi]
    · simp [POST, hk, List.length_eq_zero, hi, ht]
  · intro fr hfr
    simp [emptyBaseMessage, reasonInfo, hfr]

/-- Witness for C3 at concrete inputs. -/
theorem c3_interpreter_decision_order_witness :
    POST "key" (some [⟨some "Chicken"⟩])
        (fun _ => .ok (.response ⟨"", some "MAX_TOKENS", some "details"⟩))
      = ⟨500, some (emptyBaseMessage (some "MAX_TOKENS") ++ safetyInfo (some "details")),
         none⟩
    ∧ emptyBaseMessage (some "MAX_TOKENS")
      = "Failed to generate recipe. " ++ (" (Finish Reason: " ++ "MAX_TOKENS" ++ ")") :=
  ⟨(c3_interpreter_decision_order.1 "key" [⟨some "Chicken"⟩]
      ⟨"", some "MAX_TOKENS", some "details"⟩ (by decide) (by decide) rfl).2,
   c3_interpreter_decision_order.2.2.1 "MAX_TOKENS" (by decide)⟩

/-- C4 counterexample: with input `["salt"]` the built prompt contains "salt"
twice, not exactly once (the fixed template itself suggests the staples salt,
pepper, oil, water); with input `["Chicken"]` the prompt mentions "salt", an
ingredient name not in the input. -/
theorem c4_counterexample :
    countOcc "salt".data (buildPrompt (jsJoin ", " ["salt"])).data = 2
    ∧ countOcc "salt".data (buildPrompt (jsJoin ", " ["Chicken"])).data = 1 := by
  constructor
  · decide
  · decide

/-- C4 (amended): for every non-empty sequence of ingredient names, the
prompt built for the provider contains every given name at least once (the
comma-joined name list appears verbatim between the fixed template parts). -/
theorem c4_amended_prompt_contains_every_name :
    ∀ (names : List String), names ≠ [] → ∀ n ∈ names,
      1 ≤ countOcc n.data (buildPrompt (jsJoin ", " names)).data := by
  intro names _hne n hn
  obtain ⟨pre, post, hsplit⟩ := mem_split_of_jsJoin names n hn
  have hdata : (buildPrompt (jsJoin ", " names)).data
      = (promptPart1.data ++ pre) ++ (n.data ++ (post ++ promptPart2.data)) := by
    simp [buildPrompt, String.data_append, hsplit, List.append_assoc]
  rw [hdata]
  exact one_le_countOcc_of_split n.data (promptPart1.data ++ pre)
    (post ++ promptPart2.data)

/-- Witness for the amended C4 at a concrete name list. -/
theorem c4_amended_prompt_contains_every_name_witness :
    1 ≤ countOcc "Rice".data (buildPrompt (jsJoin ", " ["Chicken", "Rice"])).data :=
  c4_amended_prompt_contains_every_name ["Chicken", "Rice"] (by decide) "Rice"
    (by decide)

/-- C7 counterexample: two 500 responses of the route do not carry an error
string of the form "Failed to generate recipe. " followed by a detail: the
configuration-error response is exactly "API key not configured", and the
safety-blocked response reads "Failed to generate recipe due to safety
settings." (no ". " after "recipe"). -/
theorem c7_counterexample :
    ((POST "" (some [⟨some "Chicken"⟩]) (fun _ => .ok .noResponse)).error
        = some "API key not configured"
      ∧ ¬ ∃ d : String,
          "API key not configured" = "Failed to generate recipe. " ++ d)
    ∧ ((POST "key" (some [⟨some "Chicken"⟩])
          (fun _ => .ok (.response ⟨"", some "SAFETY", none⟩))).error
        = some "Failed to generate recipe due to safety settings."
      ∧ ¬ ∃ d : String,
          "Failed to generate recipe due to safety settings."
            = "Failed to generate recipe. " ++ d) := by
  refine ⟨⟨rfl, ?_⟩, ?_, ?_⟩
  · rintro ⟨d, hd⟩
    exact append_ne_of_isPrefixOf_eq_false (by decide) d hd.symm
  · decide
  · rintro ⟨d, hd⟩
    exact append_ne_of_isPrefixOf_eq_false (by decide) d hd.symm

/-- C7 (amended): every 500 failure response from the generate endpoint other
than the configuration error ("API key not configured") and the safety-blocked
case ("Failed to generate recipe due to safety settings." plus the appended
safety diagnostic) carries an error string composed as "Failed to generate
recipe. " followed by the failure detail; a provider call throwing with
message "fetch failed" yields exactly "Failed to generate recipe. fetch
failed", and an unrecognized thrown value yields the detail "Unknown
error". -/
theorem c7_amended_500_error_composition :
    ∀ (apiKey : String) (items : List JsIngredient), apiKey ≠ "" → items ≠ [] →
      (POST apiKey (some items) (fun _ => .ok .noResponse)).error
          = some ("Failed to generate recipe. " ++ "No response object from AI.")
      ∧ (∀ (fr sr : Option String), fr ≠ some "SAFETY" →
          ∃ d, (POST apiKey (some items) (fun _ => .ok (.response ⟨"", fr, sr⟩))).error
            = some ("Failed to generate recipe. " ++ d))
      ∧ (∀ e : ThrownValue,
          (POST apiKey (some items) (fun _ => .throws e)).error
            = some ("Failed to generate recipe. " ++ thrownMessage e))
      ∧ (POST apiKey (some items) (fun _ => .throws (.errorObj "fetch failed"))).error
          = some "Failed to generate recipe. fetch failed"
      ∧ thrownMessage .other = "Unknown error" := by
  intro apiKey items hk hi
  refine ⟨?_, ?_, ?_, ?_, rfl⟩
  · have h1 : (POST apiKey (some items) (fun _ => .ok .noResponse)).error
        = some "Failed to generate recipe. No response object from AI." := by
      simp [POST, hk, List.length_eq_zero, hi]
    rw [h1]
    exact congrArg some (by decide)
  · intro fr sr hfr
    have h1 : (POST apiKey (some items) (fun _ => .ok (.response ⟨"", fr, sr⟩))).error
        = some (emptyBaseMessage fr ++ safetyInfo sr) := by
      simp [POST, hk, List.length_eq_zero, hi]
    cases fr with
    | none =>
      refine ⟨"The AI response was empty or blocked." ++ safetyInfo sr, ?_⟩
      rw [h1]
      have h2 : emptyBaseMessage none
          = "Failed to generate recipe. " ++ "The AI response was empty or blocked." := by
        decide
      rw [h2, String.append_assoc]
    | some r =>
      refine ⟨reasonInfo (some r) ++ safetyInfo sr, ?_⟩
      rw [h1]
      have h2 : emptyBaseMessage (some r)
          = "Failed to generate recipe. " ++ reasonInfo (some r) := by
        simp [emptyBaseMessage, hfr]
      rw [h2, String.append_assoc]
  · intro e
    simp [POST, hk, List.length_eq_zero, hi]
  · have h1 : (POST apiKey (some items) (fun _ => .throws (.errorObj "fetch failed"))).error
        = some ("Failed to generate recipe. " ++ thrownMessage (.errorObj "fetch failed")) := by
      simp [POST, hk, List.length_eq_zero, hi]
    rw [h1]
    exact congrArg some (by decide)

/-- Witness for the amended C7 at concrete inputs. -/
theorem c7_amended_500_error_composition_witness :
    (POST "key" (some [⟨some "Chicken"⟩])
        (fun _ => .throws (.errorObj "fetch failed"))).error
      = some "Failed to generate recipe. fetch failed"
    ∧ (POST "key" (some [⟨some "Chicken"⟩]) (fun _ => .throws .other)).error
      = some ("Failed to generate recipe. " ++ thrownMessage .other) :=
  ⟨(c7_amended_500_error_composition "key" [⟨some "Chicken"⟩]
      (by decide) (by decide)).2.2.2.1,
   (c7_amended_500_error_composition "key" [⟨some "Chicken"⟩]
      (by decide) (by decide)).2.2.1 .other⟩

/-- C10: request validation only checks that `ingredients` is a non-empty
array: every non-empty array passes — the result is never the 400 validation
rejection, whatever the element shapes — and an element lacking a `name`
field is rendered by `join` as the empty string in the interpolated name
list of the prompt. -/
theorem c10_validation_only_checks_nonempty_array :
    (∀ (apiKey : String) (items : List JsIngredient) (provider : String → CallResult),
       apiKey ≠ "" → items ≠ [] →
       (POST apiKey (some items) provider).status ≠ 400
       ∧ (POST apiKey (some items) provider).error
           ≠ some "Missing or invalid ingredients list")
    ∧ ingredientNamesOf [⟨some "Chicken"⟩, ⟨none⟩] = "Chicken, "
    ∧ POST "key" (some [⟨some "Chicken"⟩, ⟨none⟩])
        (fun _ => .ok (.response ⟨"RECIPE", none, none⟩))
      = ⟨200, none, some "RECIPE"⟩
    ∧ buildPrompt (ingredientNamesOf [⟨some "Chicken"⟩, ⟨none⟩])
      = buildPrompt "Chicken, " := by
  refine ⟨?_, by decide, by decide, congrArg buildPrompt (by decide)⟩
  intro apiKey items provider hk hi
  have hlen : ¬ items.length = 0 := by
    simpa [List.length_eq_zero] using hi
  cases hp : provider (buildPrompt (ingredientNamesOf items)) with
  | throws e =>
    constructor
    · simp [POST, hk, hlen, hp]
    · have h1 : (POST apiKey (some items) provider).error
          = some ("Failed to generate recipe. " ++ thrownMessage e) := by
        simp [POST, hk, hlen, hp]
      rw [h1]
      intro hc
      exact append_ne_of_isPrefixOf_eq_false (by decide) (thrownMessage e)
        (Option.some.inj hc)
  | ok pr =>
    cases pr with
    | noResponse =>
      constructor
      · simp [POST, hk, hlen, hp]
      · simp [POST, hk, hlen, hp]
    | response r =>
      by_cases htext : r.text = ""
      · constructor
        · simp [POST, hk, hlen, hp, htext]
        · have h1 : (POST apiKey (some items) provider).error
              = some (emptyBaseMessage r.finishReason ++ safetyInfo r.safetyRatings) := by
            simp [POST, hk, hlen, hp, htext]
          obtain ⟨rest, hr⟩ := emptyBaseMessage_starts_with_failed r.finishReason
          rw [h1, hr, String.append_assoc]
          intro hc
          exact append_ne_of_isPrefixOf_eq_false (by decide)
            (rest ++ safetyInfo r.safetyRatings) (Option.some.inj hc)
      · constructor
        · simp [POST, hk, hlen, hp, htext]
        · simp [POST, hk, hlen, hp, htext]

/-- Witness for C10 at a concrete nameless element. -/
theorem c10_validation_only_checks_nonempty_array_witness :
    (POST "key" (some [⟨none⟩]) (fun _ => .ok .noResponse)).status ≠ 400 :=
  (c10_validation_only_checks_nonempty_array.1 "key" [⟨none⟩]
    (fun _ => .ok .noResponse) (by decide) (by decide)).1

end RecipeGen
